import Mathlib

/-!
Shallow embedding of the hotfix-cli workflow (src/index.ts).

The program is a single class `HotfixCLI` whose `run` method executes a fixed
sequence of steps (validateEnvironment, generateCommitMessage,
generateBranchName, createAndSwitchBranch, commitChanges, pushBranch,
createPR, mergePR, cleanup), catching any failure, invoking `rollback`, and
exiting with status 1.  Every external effect goes through `executeCommand`,
which shells out a command string and either returns its stdout or throws.

The embedding models a run as a pure function of a `World`: an oracle that
fixes the result of every external command string, the operator's interactive
answers, and the wall-clock readings.  Each step returns the updated mutable
state, an optional error, and the list of externally visible events (commands
executed, interactive reads, timed sleeps) in order.
-/

namespace Hotfix

/-- Result of running one external command: captured stdout, or a failure
message (non-zero exit or command not found), as produced by `execSync`. -/
inductive CmdResult where
  | ok (output : String)
  | err (msg : String)
deriving DecidableEq, Repr

/-- Broken-down wall-clock time, standing for a JS `Date` value. -/
structure DT where
  year : Nat
  month : Nat
  day : Nat
  hour : Nat
  minute : Nat
  second : Nat
  ms : Nat
deriving DecidableEq, Repr

/-- Valid calendar readings within the range where `Date.toISOString` uses the
plain four-digit-year `YYYY-MM-DDTHH:mm:ss.sssZ` format. -/
def DT.Valid (t : DT) : Prop :=
  t.year ≤ 9999 ∧ 1 ≤ t.month ∧ t.month ≤ 12 ∧ 1 ≤ t.day ∧ t.day ≤ 31 ∧
    t.hour ≤ 23 ∧ t.minute ≤ 59 ∧ t.second ≤ 59 ∧ t.ms ≤ 999

instance (t : DT) : Decidable t.Valid := by
  unfold DT.Valid
  infer_instance

/-- One decimal digit character of `n` (its last digit), as zero-padded decimal
printing produces. -/
def digit (n : Nat) : Char :=
  Char.ofNat (48 + n % 10)

/-- Two-digit zero-padded decimal rendering, as `toISOString` uses for month,
day, hour, minute and second fields. -/
def pad2 (n : Nat) : List Char :=
  [digit (n / 10), digit n]

/-- Three-digit zero-padded decimal rendering (milliseconds field). -/
def pad3 (n : Nat) : List Char :=
  [digit (n / 100), digit (n / 10), digit n]

/-- Four-digit zero-padded decimal rendering (year field). -/
def pad4 (n : Nat) : List Char :=
  [digit (n / 1000), digit (n / 100), digit (n / 10), digit n]

/-- Modelled from `Date.toISOString()`: the 24 characters
`YYYY-MM-DDTHH:mm:ss.sssZ` for an in-range date. -/
def isoChars (t : DT) : List Char :=
  pad4 t.year ++ '-' :: pad2 t.month ++ '-' :: pad2 t.day ++
    'T' :: pad2 t.hour ++ ':' :: pad2 t.minute ++ ':' :: pad2 t.second ++
    '.' :: pad3 t.ms ++ ['Z']

/-- The regex replacement `.replace(/[:.]/g, "-")`: every colon or period
becomes a hyphen. -/
def replaceColonDot (l : List Char) : List Char :=
  l.map fun c => if c = ':' ∨ c = '.' then '-' else c

/-- The string replacement `.replace("T", "-")`: only the first occurrence of
`T` becomes a hyphen. -/
def replaceFirstT : List Char → List Char
  | [] => []
  | c :: cs => if c = 'T' then '-' :: cs else c :: replaceFirstT cs

/-- `generateBranchName`'s timestamp: ISO string with `:`/`.`/first-`T`
replaced by hyphens, then `substring(0, 19)`. -/
def branchTimestamp (t : DT) : String :=
  ⟨(replaceFirstT (replaceColonDot (isoChars t))).take 19⟩

/-- The branch name `generateBranchName` stores into `this.branchName`. -/
def branchNameOf (t : DT) : String :=
  "hotfix-" ++ branchTimestamp t

/-- The mutable fields of `HotfixCLI`, all initialised to the empty string. -/
structure WState where
  branchName : String := ""
  originalBranch : String := ""
  commitMessage : String := ""
deriving DecidableEq, Repr

/-- The initial `HotfixCLI` instance state. -/
def initState : WState := {}

/-- The distinct failures a run can end with: one constructor per `throw`
site that can escape a step (`CommandError`s carry the failing command and
the underlying message, as `executeCommand` rethrows them). -/
inductive WErr where
  | notARepo
  | notAuth
  | wrongBranch (actual : String)
  | noChanges
  | cmdFailed (command msg : String)
deriving DecidableEq, Repr

/-- Whether an error is one of the four pre-flight validation failures. -/
def WErr.isPreflight : WErr → Bool
  | .notARepo | .notAuth | .wrongBranch _ | .noChanges => true
  | .cmdFailed _ _ => false

/-- Externally visible events of a run, in order: executed command strings,
blocking one-line interactive reads (with the line obtained), and the fixed
timer delay. -/
inductive Event where
  | cmd (command : String)
  | readLine (answer : String)
  | sleepMs (n : Nat)
deriving DecidableEq, Repr

/-- The oracle a run consumes: the outcome of every external command string,
the operator's two interactive inputs, and the wall-clock readings taken at
the three `new Date()` call sites. -/
structure World where
  cmd : String → CmdResult
  editAnswer : String
  confirmAnswer : String
  timeBranch : DT
  localeMsg : String
  localeBody : String

/-- Modelled from JS `String.prototype.trim`: strip leading and trailing
whitespace. -/
def strTrim (s : String) : String :=
  ⟨(((s.data.dropWhile Char.isWhitespace).reverse).dropWhile
      Char.isWhitespace).reverse⟩

/-- The workflow phases, in the fixed order `run` executes them. -/
inductive Phase where
  | validate
  | genMsg
  | genBranch
  | createBranch
  | commit
  | push
  | createPR
  | mergePR
  | cleanup
deriving DecidableEq, Repr

/-- Phases in the span the spec calls "branch-creation through cleanup". -/
def Phase.inBranchToCleanup : Phase → Bool
  | .createBranch | .commit | .push | .createPR | .mergePR | .cleanup => true
  | .validate | .genMsg | .genBranch => false

/-- A step returns the updated state, `none` on success or the thrown error,
and the ordered list of events it performed. -/
abbrev StepResult := WState × Option WErr × List Event

/-- Command strings, exactly as the template literals in the source build
them. -/
def revParseCmd : String := "git rev-parse --git-dir"

/-- The `gh auth status` probe. -/
def authCmd : String := "gh auth status"

/-- The current-branch query. -/
def showCurrentCmd : String := "git branch --show-current"

/-- The pending-changes query. -/
def statusCmd : String := "git status --porcelain"

/-- The optional external commit-message generator. -/
def commitologistCmd : String := "commitologist"

/-- The create-and-switch-branch command of `createAndSwitchBranch`. -/
def checkoutBCmd (b : String) : String := "git checkout -b " ++ b

/-- The stage-all command of `commitChanges`. -/
def addCmd : String := "git add ."

/-- The commit command of `commitChanges`: the message is interpolated
unescaped between double quotes. -/
def commitCmd (m : String) : String := "git commit -m \"" ++ m ++ "\""

/-- The push command of `pushBranch`. -/
def pushCmd (b : String) : String := "git push origin " ++ b

/-- The PR title: the commit message, truncated to its first 70 characters
(`message.substring(0, 70)`) when longer. -/
def prTitle (m : String) : String :=
  if m.length > 70 then ⟨m.data.take 70⟩ else m

/-- The PR body template with the creation wall-clock reading. -/
def prBody (locale : String) : String :=
  "Automated hotfix created at " ++ locale

/-- The PR-creation command of `createPR`: title and body are interpolated
unescaped between double quotes. -/
def prCreateCmd (title body b : String) : String :=
  "gh pr create --title \"" ++ title ++ "\" --body \"" ++ body ++
    "\" --base main --head " ++ b

/-- The automatic-merge command of `mergePR`. -/
def mergeCmd (b : String) : String :=
  "gh pr merge " ++ b ++ " --merge --delete-branch --auto"

/-- The open-in-browser command of `mergePR`'s manual fallback. -/
def viewCmd (b : String) : String := "gh pr view " ++ b ++ " --web"

/-- The checkout command used by `cleanup` (to `main`) and by `rollback`
(to the recorded original branch). -/
def checkoutCmd (b : String) : String := "git checkout " ++ b

/-- The pull command of `cleanup`. -/
def pullCmd : String := "git pull origin main"

/-- The delete-local-branch command of `cleanup` and `rollback`. -/
def branchDCmd (b : String) : String := "git branch -D " ++ b

/-- `validateEnvironment`: repository check, auth check, current-branch query
(recording `originalBranch`), trunk-branch check, pending-changes check, in
that order, short-circuiting at the first failure. -/
def validateEnvironment (w : World) (s : WState) : StepResult :=
  match w.cmd revParseCmd with
  | .err _ => (s, some .notARepo, [.cmd revParseCmd])
  | .ok _ =>
  match w.cmd authCmd with
  | .err _ => (s, some .notAuth, [.cmd revParseCmd, .cmd authCmd])
  | .ok _ =>
  match w.cmd showCurrentCmd with
  | .err m =>
      (s, some (.cmdFailed showCurrentCmd m),
        [.cmd revParseCmd, .cmd authCmd, .cmd showCurrentCmd])
  | .ok out =>
      let s' := { s with originalBranch := strTrim out }
      if strTrim out ≠ "main" then
        (s', some (.wrongBranch (strTrim out)),
          [.cmd revParseCmd, .cmd authCmd, .cmd showCurrentCmd])
      else
        match w.cmd statusCmd with
        | .err m =>
            (s', some (.cmdFailed statusCmd m),
              [.cmd revParseCmd, .cmd authCmd, .cmd showCurrentCmd,
                .cmd statusCmd])
        | .ok st =>
            if strTrim st = "" then
              (s', some .noChanges,
                [.cmd revParseCmd, .cmd authCmd, .cmd showCurrentCmd,
                  .cmd statusCmd])
            else
              (s', none,
                [.cmd revParseCmd, .cmd authCmd, .cmd showCurrentCmd,
                  .cmd statusCmd])

/-- The fallback commit message template with the wall-clock reading taken at
that point. -/
def fallbackMessage (w : World) : String :=
  "Hotfix: automated fix (" ++ w.localeMsg ++ ")"

/-- The message resolved before the interactive prompt: the generator's
trimmed output, or — when the generator is absent, fails, or produces an
empty (after trimming) string — the fallback template. -/
def generatedMessage (w : World) : String :=
  match w.cmd commitologistCmd with
  | .ok out => if strTrim out = "" then fallbackMessage w else strTrim out
  | .err _ => fallbackMessage w

/-- `generateCommitMessage`: resolve the generated message, then apply the
operator's edit, `answer.trim() || this.commitMessage`.  This step cannot
fail. -/
def generateCommitMessage (w : World) (s : WState) : StepResult :=
  let m := generatedMessage w
  let final := if strTrim w.editAnswer = "" then m
    else strTrim w.editAnswer
  ({ s with commitMessage := final }, none,
    [.cmd commitologistCmd, .readLine w.editAnswer])

/-- `generateBranchName`: pure, never fails, performs no external event. -/
def generateBranchName (w : World) (s : WState) : StepResult :=
  ({ s with branchName := branchNameOf w.timeBranch }, none, [])

/-- `createAndSwitchBranch`: a single `git checkout -b` invocation. -/
def createAndSwitchBranch (w : World) (s : WState) : StepResult :=
  match w.cmd (checkoutBCmd s.branchName) with
  | .err m =>
      (s, some (.cmdFailed (checkoutBCmd s.branchName) m),
        [.cmd (checkoutBCmd s.branchName)])
  | .ok _ => (s, none, [.cmd (checkoutBCmd s.branchName)])

/-- `commitChanges`: stage all, then commit with the resolved message. -/
def commitChanges (w : World) (s : WState) : StepResult :=
  match w.cmd addCmd with
  | .err m => (s, some (.cmdFailed addCmd m), [.cmd addCmd])
  | .ok _ =>
  match w.cmd (commitCmd s.commitMessage) with
  | .err m =>
      (s, some (.cmdFailed (commitCmd s.commitMessage) m),
        [.cmd addCmd, .cmd (commitCmd s.commitMessage)])
  | .ok _ => (s, none, [.cmd addCmd, .cmd (commitCmd s.commitMessage)])

/-- `pushBranch`: a single push invocation. -/
def pushBranch (w : World) (s : WState) : StepResult :=
  match w.cmd (pushCmd s.branchName) with
  | .err m =>
      (s, some (.cmdFailed (pushCmd s.branchName) m),
        [.cmd (pushCmd s.branchName)])
  | .ok _ => (s, none, [.cmd (pushCmd s.branchName)])

/-- `createPR`: a single PR-creation invocation with truncated title and
timestamped body. -/
def createPR (w : World) (s : WState) : StepResult :=
  match w.cmd (prCreateCmd (prTitle s.commitMessage) (prBody w.localeBody)
      s.branchName) with
  | .err m =>
      (s, some (.cmdFailed
          (prCreateCmd (prTitle s.commitMessage) (prBody w.localeBody)
            s.branchName) m),
        [.cmd (prCreateCmd (prTitle s.commitMessage) (prBody w.localeBody)
          s.branchName)])
  | .ok _ =>
      (s, none,
        [.cmd (prCreateCmd (prTitle s.commitMessage) (prBody w.localeBody)
          s.branchName)])

/-- `mergePR`: sleep, try the automatic merge; on its failure open the PR in
the browser (a failure here escapes the surrounding catch) and block for one
line of operator input. -/
def mergePR (w : World) (s : WState) : StepResult :=
  match w.cmd (mergeCmd s.branchName) with
  | .ok _ => (s, none, [.sleepMs 1000, .cmd (mergeCmd s.branchName)])
  | .err _ =>
    match w.cmd (viewCmd s.branchName) with
    | .err m =>
        (s, some (.cmdFailed (viewCmd s.branchName) m),
          [.sleepMs 1000, .cmd (mergeCmd s.branchName),
            .cmd (viewCmd s.branchName)])
    | .ok _ =>
        (s, none,
          [.sleepMs 1000, .cmd (mergeCmd s.branchName),
            .cmd (viewCmd s.branchName), .readLine w.confirmAnswer])

/-- `cleanup`: checkout `main`, pull, then delete the local branch with the
deletion failure swallowed. -/
def cleanup (w : World) (s : WState) : StepResult :=
  match w.cmd (checkoutCmd "main") with
  | .err m =>
      (s, some (.cmdFailed (checkoutCmd "main") m), [.cmd (checkoutCmd "main")])
  | .ok _ =>
  match w.cmd pullCmd with
  | .err m =>
      (s, some (.cmdFailed pullCmd m),
        [.cmd (checkoutCmd "main"), .cmd pullCmd])
  | .ok _ =>
      (s, none,
        [.cmd (checkoutCmd "main"), .cmd pullCmd,
          .cmd (branchDCmd s.branchName)])

/-- `rollback`: checkout the recorded original branch when one was recorded
(on its failure the outer catch fires and the deletion is skipped), then
attempt to delete the generated branch when one was named, its failure
ignored.  `rollback` itself never propagates an error. -/
def rollback (w : World) (s : WState) : List Event :=
  if s.originalBranch = "" then
    if s.branchName = "" then [] else [.cmd (branchDCmd s.branchName)]
  else
    match w.cmd (checkoutCmd s.originalBranch) with
    | .err _ => [.cmd (checkoutCmd s.originalBranch)]
    | .ok _ =>
        .cmd (checkoutCmd s.originalBranch) ::
          (if s.branchName = "" then [] else [.cmd (branchDCmd s.branchName)])

/-- Accumulated pipeline position: current state, first error (tagged with the
phase that raised it) if any, and the events performed so far. -/
structure PipeAcc where
  state : WState
  err : Option (Phase × WErr)
  trace : List Event
deriving DecidableEq, Repr

/-- The empty accumulator `run` starts from. -/
def pipeInit : PipeAcc := ⟨initState, none, []⟩

/-- Sequencing inside `run`'s try block: once an error has been thrown the
remaining steps do not execute. -/
def stepSeq (w : World) (p : Phase) (f : World → WState → StepResult)
    (acc : PipeAcc) : PipeAcc :=
  match acc.err with
  | some _ => acc
  | none =>
      ⟨(f w acc.state).1, ((f w acc.state).2.1).map fun x => (p, x),
        acc.trace ++ (f w acc.state).2.2⟩

/-- The pipeline through `createPR` (everything before the merge step). -/
def pipelineThroughPR (w : World) : PipeAcc :=
  stepSeq w .createPR createPR <|
  stepSeq w .push pushBranch <|
  stepSeq w .commit commitChanges <|
  stepSeq w .createBranch createAndSwitchBranch <|
  stepSeq w .genBranch generateBranchName <|
  stepSeq w .genMsg generateCommitMessage <|
  stepSeq w .validate validateEnvironment pipeInit

/-- The whole try block of `run`: all nine steps in order. -/
def pipeline (w : World) : PipeAcc :=
  stepSeq w .cleanup cleanup <|
  stepSeq w .mergePR mergePR <|
  pipelineThroughPR w

/-- The observable outcome of one `run`: final state, the caught failure (if
any), the events of the try block, the events of `rollback` when it was
invoked, and the process exit code. -/
structure RunOut where
  state : WState
  failure : Option (Phase × WErr)
  events : List Event
  rollbackEvents : Option (List Event)
  exitCode : Nat
deriving DecidableEq, Repr

/-- `run`: execute the pipeline; on success finish with exit code 0; on the
single caught failure invoke `rollback` once and exit with code 1. -/
def runWorkflow (w : World) : RunOut :=
  match pipeline w with
  | ⟨s, none, tr⟩ => ⟨s, none, tr, none, 0⟩
  | ⟨s, some pe, tr⟩ => ⟨s, some pe, tr, some (rollback w s), 1⟩

/-- All events of a run, the rollback's included. -/
def RunOut.fullEvents (r : RunOut) : List Event :=
  r.events ++ r.rollbackEvents.getD []

/-- Leading words of every command the program runs that belongs to a
mutating command category (it can create branches, commits, pushes, pull
requests, merges, pulls, deletions, or working-tree switches). -/
def mutatingLeads : List String :=
  ["git checkout", "git add", "git commit", "git push", "git pull",
    "git branch -D", "gh pr create", "gh pr merge"]

/-- Leading words of the strictly mutating commands: as `mutatingLeads`, but a
plain branch switch (`git checkout` without `-b`) is excluded. -/
def strictMutatingLeads : List String :=
  ["git checkout -b", "git add", "git commit", "git push", "git pull",
    "git branch -D", "gh pr create", "gh pr merge"]

/-- Whether a command string belongs to a mutating command category. -/
def isMutatingCmd (c : String) : Bool :=
  mutatingLeads.any fun l => l.data.isPrefixOf c.data

/-- Whether a command string is strictly mutating (branch switches
excluded). -/
def isStrictMutatingCmd (c : String) : Bool :=
  strictMutatingLeads.any fun l => l.data.isPrefixOf c.data

/-- Whether an event invokes a mutating-category command. -/
def Event.isMutating : Event → Bool
  | .cmd c => isMutatingCmd c
  | .readLine _ => false
  | .sleepMs _ => false

/-- Whether an event invokes a strictly mutating command. -/
def Event.isStrictMutating : Event → Bool
  | .cmd c => isStrictMutatingCmd c
  | .readLine _ => false
  | .sleepMs _ => false

/-- The run reached the cleanup step: it either succeeded or failed inside
cleanup itself. -/
def cleanupReached (w : World) : Prop :=
  (runWorkflow w).failure = none ∨
    (runWorkflow w).failure.map Prod.fst = some Phase.cleanup

instance (w : World) : Decidable (cleanupReached w) := by
  unfold cleanupReached
  infer_instance

/-- The 19 characters of the generated branch timestamp. -/
def tsChars (t : DT) : List Char :=
  [digit (t.year / 1000), digit (t.year / 100), digit (t.year / 10),
    digit t.year, '-', digit (t.month / 10), digit t.month, '-',
    digit (t.day / 10), digit t.day, '-', digit (t.hour / 10), digit t.hour,
    '-', digit (t.minute / 10), digit t.minute, '-', digit (t.second / 10),
    digit t.second]

/-- A fixed wall-clock reading used by the concrete scenarios below. -/
def t0 : DT := ⟨2025, 7, 30, 14, 30, 45, 123⟩

/-- A fixed locale rendering of `t0` used by the concrete scenarios below. -/
def loc0 : String := "7/30/2025, 2:30:45 PM"

/-- A run in which the repository check fails and every other command
succeeds. -/
def wNoRepo : World :=
  { cmd := fun c =>
      if c = revParseCmd then .err "not a git repository" else .ok "ok",
    editAnswer := "", confirmAnswer := "", timeBranch := t0,
    localeMsg := loc0, localeBody := loc0 }

/-- A run that passes validation and fails at the push step. -/
def wPushFail : World :=
  { cmd := fun c =>
      if c = showCurrentCmd then .ok "main\n"
      else if c = pushCmd "hotfix-2025-07-30-14-30-45" then .err "network"
      else .ok "y",
    editAnswer := "", confirmAnswer := "", timeBranch := t0,
    localeMsg := loc0, localeBody := loc0 }

/-- A run started on branch `dev` instead of `main`. -/
def wWrongBranch : World :=
  { cmd := fun c => if c = showCurrentCmd then .ok "dev\n" else .ok "y",
    editAnswer := "", confirmAnswer := "", timeBranch := t0,
    localeMsg := loc0, localeBody := loc0 }

/-- A run in which the automatic merge is rejected but opening the pull
request succeeds. -/
def wMergeManual : World :=
  { cmd := fun c =>
      if c = showCurrentCmd then .ok "main\n"
      else if c = mergeCmd "hotfix-2025-07-30-14-30-45" then .err "rejected"
      else .ok "y",
    editAnswer := "", confirmAnswer := "", timeBranch := t0,
    localeMsg := loc0, localeBody := loc0 }

/-- A run in which the automatic merge is rejected and opening the pull
request in the browser also fails. -/
def wViewFail : World :=
  { cmd := fun c =>
      if c = showCurrentCmd then .ok "main\n"
      else if c = mergeCmd "hotfix-2025-07-30-14-30-45" then .err "rejected"
      else if c = viewCmd "hotfix-2025-07-30-14-30-45" then .err "no browser"
      else .ok "y",
    editAnswer := "", confirmAnswer := "", timeBranch := t0,
    localeMsg := loc0, localeBody := loc0 }

/-- A run in which the commit-message generator is absent and the operator
answers the edit prompt with a whitespace-padded line. -/
def wGenFail : World :=
  { cmd := fun c =>
      if c = showCurrentCmd then .ok "main\n"
      else if c = commitologistCmd then .err "command not found"
      else .ok "y",
    editAnswer := " x ", confirmAnswer := "", timeBranch := t0,
    localeMsg := loc0, localeBody := loc0 }

/-- A run in which switching back to `main` fails. -/
def wCleanupFail : World :=
  { cmd := fun c =>
      if c = showCurrentCmd then .ok "main\n"
      else if c = checkoutCmd "main" then .err "working tree dirty"
      else .ok "y",
    editAnswer := "", confirmAnswer := "", timeBranch := t0,
    localeMsg := loc0, localeBody := loc0 }

/-- A run in which every external command succeeds. -/
def wOk : World :=
  { cmd := fun c => if c = showCurrentCmd then .ok "main\n" else .ok "y",
    editAnswer := "", confirmAnswer := "", timeBranch := t0,
    localeMsg := loc0, localeBody := loc0 }

/-- A 71-character commit message, one character past the title-truncation
threshold. -/
def m71 : String := ⟨List.replicate 71 'a'⟩

/-- Digits never render as a colon. -/
lemma digit_ne_colon (n : Nat) : digit n ≠ ':' := by
  unfold digit
  have h : n % 10 < 10 := Nat.mod_lt _ (by norm_num)
  generalize hk : n % 10 = k at h ⊢
  interval_cases k <;> decide

/-- Digits never render as a period. -/
lemma digit_ne_dot (n : Nat) : digit n ≠ '.' := by
  unfold digit
  have h : n % 10 < 10 := Nat.mod_lt _ (by norm_num)
  generalize hk : n % 10 = k at h ⊢
  interval_cases k <;> decide

/-- Digits never render as the letter `T`. -/
lemma digit_ne_T (n : Nat) : digit n ≠ 'T' := by
  unfold digit
  have h : n % 10 < 10 := Nat.mod_lt _ (by norm_num)
  generalize hk : n % 10 = k at h ⊢
  interval_cases k <;> decide

lemma digit_colonDot (n : Nat) :
    ((digit n = ':' ∨ digit n = '.') = False) := by
  simp [digit_ne_colon n, digit_ne_dot n]

lemma dash_colonDot : ((('-' : Char) = ':' ∨ ('-' : Char) = '.') = False) :=
  eq_false (by decide)

lemma T_colonDot : ((('T' : Char) = ':' ∨ ('T' : Char) = '.') = False) :=
  eq_false (by decide)

lemma Z_colonDot : ((('Z' : Char) = ':' ∨ ('Z' : Char) = '.') = False) :=
  eq_false (by decide)

lemma colon_colonDot : (((':' : Char) = ':' ∨ (':' : Char) = '.') = True) :=
  eq_true (by decide)

lemma dot_colonDot : ((('.' : Char) = ':' ∨ ('.' : Char) = '.') = True) :=
  eq_true (by decide)

lemma digit_T (n : Nat) : ((digit n = 'T') = False) := eq_false (digit_ne_T n)

lemma dash_T : ((('-' : Char) = 'T') = False) := eq_false (by decide)

lemma T_T : ((('T' : Char) = 'T') = True) := eq_true rfl

/-- Closed form of the generated branch timestamp. -/
lemma branchTimestamp_eq (t : DT) : branchTimestamp t = ⟨tsChars t⟩ := by
  unfold branchTimestamp tsChars
  congr 1
  simp only [isoChars, pad4, pad2, pad3, List.cons_append, List.nil_append]
  simp only [replaceColonDot, List.map_cons, List.map_nil, digit_colonDot,
    dash_colonDot, T_colonDot, Z_colonDot, colon_colonDot, dot_colonDot,
    if_true, if_false]
  simp only [replaceFirstT, digit_T, dash_T, T_T, if_true, if_false]
  rfl

lemma stepSeq_mk_some (w : World) (p : Phase)
    (f : World → WState → StepResult) (s : WState) (pe : Phase × WErr)
    (tr : List Event) : stepSeq w p f ⟨s, some pe, tr⟩ = ⟨s, some pe, tr⟩ :=
  rfl

lemma stepSeq_mk_none (w : World) (p : Phase)
    (f : World → WState → StepResult) (s : WState) (tr : List Event) :
    stepSeq w p f ⟨s, none, tr⟩ =
      ⟨(f w s).1, ((f w s).2.1).map fun x => (p, x), tr ++ (f w s).2.2⟩ :=
  rfl

lemma stepSeq_of_some (w : World) (p : Phase)
    (f : World → WState → StepResult) (acc : PipeAcc) (pe : Phase × WErr)
    (h : acc.err = some pe) : stepSeq w p f acc = acc := by
  unfold stepSeq
  rw [h]

lemma stepSeq_of_none (w : World) (p : Phase)
    (f : World → WState → StepResult) (acc : PipeAcc)
    (h : acc.err = none) :
    stepSeq w p f acc =
      ⟨(f w acc.state).1, ((f w acc.state).2.1).map fun x => (p, x),
        acc.trace ++ (f w acc.state).2.2⟩ := by
  unfold stepSeq
  rw [h]

lemma runWorkflow_eq_of_err (w : World) (pe : Phase × WErr)
    (h : (pipeline w).err = some pe) :
    runWorkflow w = ⟨(pipeline w).state, some pe, (pipeline w).trace,
      some (rollback w (pipeline w).state), 1⟩ := by
  unfold runWorkflow
  rcases hpl : pipeline w with ⟨s, e, tr⟩
  rw [hpl] at h
  simp only at h
  subst h
  rfl

lemma runWorkflow_eq_of_none (w : World) (h : (pipeline w).err = none) :
    runWorkflow w =
      ⟨(pipeline w).state, none, (pipeline w).trace, none, 0⟩ := by
  unfold runWorkflow
  rcases hpl : pipeline w with ⟨s, e, tr⟩
  rw [hpl] at h
  simp only at h
  subst h
  rfl

lemma runWorkflow_failure (w : World) :
    (runWorkflow w).failure = (pipeline w).err := by
  cases h : (pipeline w).err with
  | none => rw [runWorkflow_eq_of_none w h]
  | some pe => rw [runWorkflow_eq_of_err w pe h]

lemma runWorkflow_events (w : World) :
    (runWorkflow w).events = (pipeline w).trace := by
  cases h : (pipeline w).err with
  | none => rw [runWorkflow_eq_of_none w h]
  | some pe => rw [runWorkflow_eq_of_err w pe h]

lemma generateCommitMessage_ob (w : World) (s : WState) :
    ((generateCommitMessage w s).1).originalBranch = s.originalBranch := rfl

lemma generateBranchName_ob (w : World) (s : WState) :
    ((generateBranchName w s).1).originalBranch = s.originalBranch := rfl

lemma createAndSwitchBranch_ob (w : World) (s : WState) :
    ((createAndSwitchBranch w s).1).originalBranch = s.originalBranch := by
  unfold createAndSwitchBranch
  cases w.cmd (checkoutBCmd s.branchName) <;> rfl

lemma commitChanges_ob (w : World) (s : WState) :
    ((commitChanges w s).1).originalBranch = s.originalBranch := by
  unfold commitChanges
  cases w.cmd addCmd
  · cases w.cmd (commitCmd s.commitMessage) <;> rfl
  · rfl

lemma pushBranch_ob (w : World) (s : WState) :
    ((pushBranch w s).1).originalBranch = s.originalBranch := by
  unfold pushBranch
  cases w.cmd (pushCmd s.branchName) <;> rfl

lemma createPR_ob (w : World) (s : WState) :
    ((createPR w s).1).originalBranch = s.originalBranch := by
  unfold createPR
  cases w.cmd
      (prCreateCmd (prTitle s.commitMessage) (prBody w.localeBody)
        s.branchName) <;>
    rfl

lemma mergePR_ob (w : World) (s : WState) :
    ((mergePR w s).1).originalBranch = s.originalBranch := by
  unfold mergePR
  cases w.cmd (mergeCmd s.branchName)
  · rfl
  · cases w.cmd (viewCmd s.branchName) <;> rfl

lemma cleanup_ob (w : World) (s : WState) :
    ((cleanup w s).1).originalBranch = s.originalBranch := by
  unfold cleanup
  cases w.cmd (checkoutCmd "main")
  · cases w.cmd pullCmd <;> rfl
  · rfl

lemma stepSeq_ob (w : World) (p : Phase)
    (f : World → WState → StepResult) (acc : PipeAcc)
    (hf : ∀ s, ((f w s).1).originalBranch = s.originalBranch) :
    ((stepSeq w p f acc).state).originalBranch =
      acc.state.originalBranch := by
  cases h : acc.err with
  | some pe => rw [stepSeq_of_some w p f acc pe h]
  | none => rw [stepSeq_of_none w p f acc h]; exact hf acc.state

lemma validate_notARepo (w : World) (s : WState) (m : String)
    (h1 : w.cmd revParseCmd = .err m) :
    validateEnvironment w s = (s, some .notARepo, [.cmd revParseCmd]) := by
  simp [validateEnvironment, h1]

lemma validate_notAuth (w : World) (s : WState) (o1 m : String)
    (h1 : w.cmd revParseCmd = .ok o1) (h2 : w.cmd authCmd = .err m) :
    validateEnvironment w s =
      (s, some .notAuth, [.cmd revParseCmd, .cmd authCmd]) := by
  simp [validateEnvironment, h1, h2]

lemma validate_branchQueryFail (w : World) (s : WState) (o1 o2 m : String)
    (h1 : w.cmd revParseCmd = .ok o1) (h2 : w.cmd authCmd = .ok o2)
    (h3 : w.cmd showCurrentCmd = .err m) :
    validateEnvironment w s =
      (s, some (.cmdFailed showCurrentCmd m),
        [.cmd revParseCmd, .cmd authCmd, .cmd showCurrentCmd]) := by
  simp [validateEnvironment, h1, h2, h3]

lemma validate_wrongBranch (w : World) (s : WState) (o1 o2 out : String)
    (h1 : w.cmd revParseCmd = .ok o1) (h2 : w.cmd authCmd = .ok o2)
    (h3 : w.cmd showCurrentCmd = .ok out) (hb : strTrim out ≠ "main") :
    validateEnvironment w s =
      ({ s with originalBranch := strTrim out },
        some (.wrongBranch (strTrim out)),
        [.cmd revParseCmd, .cmd authCmd, .cmd showCurrentCmd]) := by
  simp [validateEnvironment, h1, h2, h3, hb]

lemma validate_statusQueryFail (w : World) (s : WState) (o1 o2 out m : String)
    (h1 : w.cmd revParseCmd = .ok o1) (h2 : w.cmd authCmd = .ok o2)
    (h3 : w.cmd showCurrentCmd = .ok out) (hb : strTrim out = "main")
    (h4 : w.cmd statusCmd = .err m) :
    validateEnvironment w s =
      ({ s with originalBranch := "main" }, some (.cmdFailed statusCmd m),
        [.cmd revParseCmd, .cmd authCmd, .cmd showCurrentCmd,
          .cmd statusCmd]) := by
  simp [validateEnvironment, h1, h2, h3, hb, h4]

lemma validate_noChanges (w : World) (s : WState) (o1 o2 out st : String)
    (h1 : w.cmd revParseCmd = .ok o1) (h2 : w.cmd authCmd = .ok o2)
    (h3 : w.cmd showCurrentCmd = .ok out) (hb : strTrim out = "main")
    (h4 : w.cmd statusCmd = .ok st) (hs : strTrim st = "") :
    validateEnvironment w s =
      ({ s with originalBranch := "main" }, some .noChanges,
        [.cmd revParseCmd, .cmd authCmd, .cmd showCurrentCmd,
          .cmd statusCmd]) := by
  simp [validateEnvironment, h1, h2, h3, hb, h4, hs]

lemma validate_ok (w : World) (s : WState) (o1 o2 out st : String)
    (h1 : w.cmd revParseCmd = .ok o1) (h2 : w.cmd authCmd = .ok o2)
    (h3 : w.cmd showCurrentCmd = .ok out) (hb : strTrim out = "main")
    (h4 : w.cmd statusCmd = .ok st) (hs : strTrim st ≠ "") :
    validateEnvironment w s =
      ({ s with originalBranch := "main" }, none,
        [.cmd revParseCmd, .cmd authCmd, .cmd showCurrentCmd,
          .cmd statusCmd]) := by
  simp [validateEnvironment, h1, h2, h3, hb, h4, hs]

lemma validateEnvironment_ok_ob (w : World) (s : WState)
    (h : (validateEnvironment w s).2.1 = none) :
    ((validateEnvironment w s).1).originalBranch = "main" := by
  cases h1 : w.cmd revParseCmd with
  | err m => rw [validate_notARepo w s m h1] at h; simp at h
  | ok o1 =>
    cases h2 : w.cmd authCmd with
    | err m => rw [validate_notAuth w s o1 m h1 h2] at h; simp at h
    | ok o2 =>
      cases h3 : w.cmd showCurrentCmd with
      | err m =>
        rw [validate_branchQueryFail w s o1 o2 m h1 h2 h3] at h
        simp at h
      | ok out =>
        by_cases hb : strTrim out = "main"
        · cases h4 : w.cmd statusCmd with
          | err m =>
            rw [validate_statusQueryFail w s o1 o2 out m h1 h2 h3 hb h4] at h
            simp at h
          | ok st =>
            by_cases hs : strTrim st = ""
            · rw [validate_noChanges w s o1 o2 out st h1 h2 h3 hb h4 hs] at h
              simp at h
            · rw [validate_ok w s o1 o2 out st h1 h2 h3 hb h4 hs]
        · rw [validate_wrongBranch w s o1 o2 out h1 h2 h3 hb] at h
          simp at h

lemma pipeline_of_validate_err (w : World) (e0 : WErr)
    (hv : (validateEnvironment w initState).2.1 = some e0) :
    pipeline w = ⟨(validateEnvironment w initState).1, some (.validate, e0),
      [] ++ (validateEnvironment w initState).2.2⟩ := by
  unfold pipeline pipelineThroughPR
  rw [stepSeq_of_none w .validate validateEnvironment pipeInit rfl]
  rw [show pipeInit.state = initState from rfl,
    show pipeInit.trace = ([] : List Event) from rfl, hv]
  simp only [Option.map_some']
  simp only [stepSeq_mk_some]

lemma pipeline_of_validate_none (w : World)
    (hv : (validateEnvironment w initState).2.1 = none) :
    (pipeline w).state.originalBranch = "main" := by
  unfold pipeline pipelineThroughPR
  rw [stepSeq_ob w .cleanup cleanup _ (cleanup_ob w),
    stepSeq_ob w .mergePR mergePR _ (mergePR_ob w),
    stepSeq_ob w .createPR createPR _ (createPR_ob w),
    stepSeq_ob w .push pushBranch _ (pushBranch_ob w),
    stepSeq_ob w .commit commitChanges _ (commitChanges_ob w),
    stepSeq_ob w .createBranch createAndSwitchBranch _
      (createAndSwitchBranch_ob w),
    stepSeq_ob w .genBranch generateBranchName _ (generateBranchName_ob w),
    stepSeq_ob w .genMsg generateCommitMessage _ (generateCommitMessage_ob w),
    stepSeq_of_none w .validate validateEnvironment pipeInit rfl]
  exact validateEnvironment_ok_ob w initState hv

lemma pipeline_ob (w : World) (p : Phase) (e : WErr)
    (h : (pipeline w).err = some (p, e)) (hp : p ≠ Phase.validate) :
    (pipeline w).state.originalBranch = "main" := by
  cases hv : (validateEnvironment w initState).2.1 with
  | some e0 =>
    rw [pipeline_of_validate_err w e0 hv] at h
    simp only at h
    injection h with h'
    exact absurd (congrArg Prod.fst h').symm hp
  | none => exact pipeline_of_validate_none w hv

lemma generateCommitMessage_err (w : World) (s : WState) :
    (generateCommitMessage w s).2.1 = none := rfl

lemma generateBranchName_err (w : World) (s : WState) :
    (generateBranchName w s).2.1 = none := rfl

lemma createAndSwitchBranch_err_np (w : World) (s : WState) (e : WErr)
    (h : (createAndSwitchBranch w s).2.1 = some e) :
    e.isPreflight = false := by
  unfold createAndSwitchBranch at h
  cases hc : w.cmd (checkoutBCmd s.branchName) <;> rw [hc] at h <;>
    simp at h
  subst h
  rfl

lemma commitChanges_err_np (w : World) (s : WState) (e : WErr)
    (h : (commitChanges w s).2.1 = some e) : e.isPreflight = false := by
  unfold commitChanges at h
  cases h1 : w.cmd addCmd <;> rw [h1] at h
  · cases h2 : w.cmd (commitCmd s.commitMessage) <;> rw [h2] at h <;>
      simp at h
    subst h
    rfl
  · simp at h
    subst h
    rfl

lemma pushBranch_err_np (w : World) (s : WState) (e : WErr)
    (h : (pushBranch w s).2.1 = some e) : e.isPreflight = false := by
  unfold pushBranch at h
  cases hc : w.cmd (pushCmd s.branchName) <;> rw [hc] at h <;> simp at h
  subst h
  rfl

lemma createPR_err_np (w : World) (s : WState) (e : WErr)
    (h : (createPR w s).2.1 = some e) : e.isPreflight = false := by
  unfold createPR at h
  cases hc : w.cmd (prCreateCmd (prTitle s.commitMessage)
      (prBody w.localeBody) s.branchName) <;> rw [hc] at h <;> simp at h
  subst h
  rfl

lemma mergePR_err_np (w : World) (s : WState) (e : WErr)
    (h : (mergePR w s).2.1 = some e) : e.isPreflight = false := by
  unfold mergePR at h
  cases h1 : w.cmd (mergeCmd s.branchName) <;> rw [h1] at h
  · simp at h
  · cases h2 : w.cmd (viewCmd s.branchName) <;> rw [h2] at h <;> simp at h
    subst h
    rfl

lemma cleanup_err_np (w : World) (s : WState) (e : WErr)
    (h : (cleanup w s).2.1 = some e) : e.isPreflight = false := by
  unfold cleanup at h
  cases h1 : w.cmd (checkoutCmd "main") <;> rw [h1] at h
  · cases h2 : w.cmd pullCmd <;> rw [h2] at h <;> simp at h
    subst h
    rfl
  · simp at h
    subst h
    rfl

lemma stepSeq_err_np (w : World) (p : Phase)
    (f : World → WState → StepResult) (acc : PipeAcc)
    (hacc : ∀ q e, acc.err = some (q, e) → e.isPreflight = false)
    (hf : ∀ s e, (f w s).2.1 = some e → e.isPreflight = false) :
    ∀ q e, (stepSeq w p f acc).err = some (q, e) →
      e.isPreflight = false := by
  intro q e h
  cases ha : acc.err with
  | some pe =>
    rw [stepSeq_of_some w p f acc pe ha] at h
    exact hacc q e h
  | none =>
    rw [stepSeq_of_none w p f acc ha] at h
    simp only [Option.map_eq_some'] at h
    obtain ⟨x, hx, hxe⟩ := h
    injection hxe with h1 h2
    exact h2 ▸ hf acc.state x hx

lemma laterErr_not_preflight (w : World)
    (hv : (validateEnvironment w initState).2.1 = none) :
    ∀ q e, (pipeline w).err = some (q, e) → e.isPreflight = false := by
  unfold pipeline pipelineThroughPR
  refine stepSeq_err_np w _ _ _ ?_ (cleanup_err_np w)
  refine stepSeq_err_np w _ _ _ ?_ (mergePR_err_np w)
  refine stepSeq_err_np w _ _ _ ?_ (createPR_err_np w)
  refine stepSeq_err_np w _ _ _ ?_ (pushBranch_err_np w)
  refine stepSeq_err_np w _ _ _ ?_ (commitChanges_err_np w)
  refine stepSeq_err_np w _ _ _ ?_ (createAndSwitchBranch_err_np w)
  refine stepSeq_err_np w _ _ _ ?_ (fun s e h => by
    rw [generateBranchName_err w s] at h; cases h)
  refine stepSeq_err_np w _ _ _ ?_ (fun s e h => by
    rw [generateCommitMessage_err w s] at h; cases h)
  intro q e h
  rw [stepSeq_of_none w .validate validateEnvironment pipeInit rfl]
    at h
  simp only [Option.map_eq_some'] at h
  obtain ⟨x, hx, _⟩ := h
  rw [show pipeInit.state = initState from rfl] at hx
  rw [hv] at hx
  cases hx

lemma rollback_head (w : World) (s : WState)
    (h : s.originalBranch ≠ "") :
    (rollback w s).head? = some (.cmd (checkoutCmd s.originalBranch)) := by
  unfold rollback
  rw [if_neg h]
  cases w.cmd (checkoutCmd s.originalBranch) <;> rfl

lemma rollback_checkout_fail (w : World) (s : WState) (m : String)
    (hob : s.originalBranch ≠ "")
    (hc : w.cmd (checkoutCmd s.originalBranch) = .err m) :
    rollback w s = [.cmd (checkoutCmd s.originalBranch)] := by
  unfold rollback
  rw [if_neg hob, hc]

lemma data_append (a b : String) : (a ++ b).data = a.data ++ b.data := rfl

lemma branchD_ne_checkout (b ob : String) :
    branchDCmd b ≠ checkoutCmd ob := by
  intro h
  have h' : (branchDCmd b).data = (checkoutCmd ob).data :=
    congrArg String.data h
  unfold branchDCmd checkoutCmd at h'
  rw [data_append, data_append] at h'
  have h5 := congrArg (fun l => l[4]?) h'
  simp [List.getElem?_append] at h5

lemma rollback_empty (w : World) (s : WState)
    (hob : s.originalBranch = "") (hbn : s.branchName = "") :
    rollback w s = [] := by
  simp [rollback, hob, hbn]

lemma rollback_ob_noBranch (w : World) (s : WState)
    (hob : s.originalBranch ≠ "") (hbn : s.branchName = "") :
    rollback w s = [.cmd (checkoutCmd s.originalBranch)] := by
  unfold rollback
  rw [if_neg hob]
  cases w.cmd (checkoutCmd s.originalBranch) <;> simp [hbn]

lemma mergePR_manual (w : World) (s : WState) (m o : String)
    (hm : w.cmd (mergeCmd s.branchName) = .err m)
    (hv : w.cmd (viewCmd s.branchName) = .ok o) :
    mergePR w s = (s, none,
      [.sleepMs 1000, .cmd (mergeCmd s.branchName),
        .cmd (viewCmd s.branchName), .readLine w.confirmAnswer]) := by
  simp [mergePR, hm, hv]

lemma mergePR_viewFail (w : World) (s : WState) (m m2 : String)
    (hm : w.cmd (mergeCmd s.branchName) = .err m)
    (hv : w.cmd (viewCmd s.branchName) = .err m2) :
    mergePR w s = (s, some (.cmdFailed (viewCmd s.branchName) m2),
      [.sleepMs 1000, .cmd (mergeCmd s.branchName),
        .cmd (viewCmd s.branchName)]) := by
  simp [mergePR, hm, hv]

/-- C5: for every valid current time, branch-name generation is a total pure
function of that time producing `hotfix-` followed by a 19-character
timestamp containing no colon or period characters. -/
theorem branchName_pattern (t : DT) (h : t.Valid) :
    ∃ ts : String, branchNameOf t = "hotfix-" ++ ts ∧ ts.length = 19 ∧
      ∀ c ∈ ts.data, c ≠ ':' ∧ c ≠ '.' := by
  refine ⟨branchTimestamp t, rfl, ?_, ?_⟩
  · rw [branchTimestamp_eq]
    rfl
  · rw [branchTimestamp_eq]
    intro c hc
    simp only [tsChars, List.mem_cons, List.not_mem_nil, or_false] at hc
    rcases hc with rfl | rfl | rfl | rfl | rfl | rfl | rfl | rfl | rfl | rfl |
      rfl | rfl | rfl | rfl | rfl | rfl | rfl | rfl | rfl <;>
    first
      | exact ⟨digit_ne_colon _, digit_ne_dot _⟩
      | exact ⟨by decide, by decide⟩

/-- C5 witness: the pattern property evaluated at the concrete valid time
`t0`. -/
theorem branchName_pattern_w :
    (t0 : DT).Valid ∧
      ∃ ts : String, branchNameOf t0 = "hotfix-" ++ ts ∧
        ts.length = 19 ∧ ∀ c ∈ ts.data, c ≠ ':' ∧ c ≠ '.' :=
  ⟨by decide, branchName_pattern t0 (by decide)⟩

/-- C1 (amended): rollback is invoked exactly once precisely when any step
fails — including pre-flight validation failures, not only failures from
branch creation through cleanup; every failing run exits non-zero, and on
any failure of a phase after validation the rollback's first action is the
checkout of the recorded original branch `main`. -/
theorem rollback_invocation (w : World) :
    ((runWorkflow w).rollbackEvents.isSome ↔
      (runWorkflow w).failure ≠ none) ∧
    ((runWorkflow w).failure ≠ none → (runWorkflow w).exitCode = 1) ∧
    ((runWorkflow w).failure = none → (runWorkflow w).exitCode = 0) ∧
    (∀ p e, (runWorkflow w).failure = some (p, e) → p ≠ Phase.validate →
      (runWorkflow w).state.originalBranch = "main" ∧
      ((runWorkflow w).rollbackEvents.getD []).head? =
        some (.cmd (checkoutCmd "main"))) := by
  cases herr : (pipeline w).err with
  | none =>
    rw [runWorkflow_eq_of_none w herr]
    refine ⟨by simp, by simp, fun _ => rfl, ?_⟩
    intro p e hf
    cases hf
  | some pe =>
    rw [runWorkflow_eq_of_err w pe herr]
    refine ⟨by simp, fun _ => rfl, by simp, ?_⟩
    intro p e hf hp
    simp only at hf
    injection hf with hf'
    subst hf'
    have hob := pipeline_ob w p e herr hp
    refine ⟨hob, ?_⟩
    simp only [Option.getD_some]
    have hne : (pipeline w).state.originalBranch ≠ "" := by
      rw [hob]
      decide
    have hh := rollback_head w (pipeline w).state hne
    rw [hob] at hh
    exact hh

/-- C1 counterexample: in the run `wNoRepo` the failing step is pre-flight
validation — a phase outside branch-creation-through-cleanup — yet rollback
is invoked, refuting the claim's "only when" condition. -/
theorem rollback_invocation_cex :
    (runWorkflow wNoRepo).failure = some (.validate, .notARepo) ∧
    Phase.validate.inBranchToCleanup = false ∧
    (runWorkflow wNoRepo).rollbackEvents.isSome = true := by
  decide

/-- C1 witness: the amended property evaluated on the concrete run whose
push step fails. -/
theorem rollback_invocation_w :
    (runWorkflow wPushFail).failure =
      some (.push, .cmdFailed (pushCmd "hotfix-2025-07-30-14-30-45")
        "network") ∧
    (runWorkflow wPushFail).exitCode = 1 ∧
    (runWorkflow wPushFail).rollbackEvents.isSome = true ∧
    (runWorkflow wPushFail).state.originalBranch = "main" := by
  have h := rollback_invocation wPushFail
  exact ⟨by decide, h.2.1 (by decide), (h.1).mpr (by decide),
    (h.2.2.2 Phase.push
      (.cmdFailed (pushCmd "hotfix-2025-07-30-14-30-45") "network")
      (by decide) (by decide)).1⟩

/-- C2 (amended): when pre-flight validation fails, no branch-creating,
committing, or pushing command is invoked; the only mutating-category
command that can run at all is the rollback's checkout of the branch the
current-branch query reported (which the run was already on). -/
theorem preflight_mutation_amended (w : World) (p : Phase) (e : WErr)
    (hf : (runWorkflow w).failure = some (p, e))
    (he : e.isPreflight = true) :
    ∀ ev ∈ (runWorkflow w).fullEvents, ev.isMutating = true →
      ∃ o, w.cmd showCurrentCmd = .ok o ∧
        ev = .cmd (checkoutCmd (strTrim o)) := by
  rw [runWorkflow_failure] at hf
  cases hv : (validateEnvironment w initState).2.1 with
  | none =>
    have hnp := laterErr_not_preflight w hv p e hf
    rw [hnp] at he
    cases he
  | some e0 =>
    have herr2 : (pipeline w).err = some (.validate, e0) := by
      rw [pipeline_of_validate_err w e0 hv]
    have hrun := runWorkflow_eq_of_err w (.validate, e0) herr2
    rw [herr2] at hf
    injection hf with hf'
    have hee : e0 = e := congrArg Prod.snd hf'
    subst hee
    have hpl := pipeline_of_validate_err w e0 hv
    cases h1 : w.cmd revParseCmd with
    | err m =>
      have hveq := validate_notARepo w initState m h1
      intro ev hev hm
      rw [RunOut.fullEvents, hrun] at hev
      simp only [hpl, hveq] at hev
      simp only [List.nil_append] at hev
      rw [rollback_empty w initState rfl rfl] at hev
      simp at hev
      subst hev
      exact absurd hm (by decide)
    | ok o1 =>
      cases h2 : w.cmd authCmd with
      | err m =>
        have hveq := validate_notAuth w initState o1 m h1 h2
        intro ev hev hm
        rw [RunOut.fullEvents, hrun] at hev
        simp only [hpl, hveq] at hev
        simp only [List.nil_append] at hev
        rw [rollback_empty w initState rfl rfl] at hev
        simp at hev
        rcases hev with rfl | rfl <;> exact absurd hm (by decide)
      | ok o2 =>
        cases h3 : w.cmd showCurrentCmd with
        | err m =>
          have hveq := validate_branchQueryFail w initState o1 o2 m h1 h2 h3
          rw [hveq] at hv
          simp only at hv
          injection hv with hv'
          rw [← hv'] at he
          cases he
        | ok out =>
          by_cases hb : strTrim out = "main"
          · cases h4 : w.cmd statusCmd with
            | err m =>
              have hveq :=
                validate_statusQueryFail w initState o1 o2 out m h1 h2 h3 hb
                  h4
              rw [hveq] at hv
              simp only at hv
              injection hv with hv'
              rw [← hv'] at he
              cases he
            | ok st =>
              by_cases hs : strTrim st = ""
              · have hveq :=
                  validate_noChanges w initState o1 o2 out st h1 h2 h3 hb h4
                    hs
                intro ev hev hm
                rw [RunOut.fullEvents, hrun] at hev
                simp only [hpl, hveq] at hev
                simp only [List.nil_append] at hev
                rw [rollback_ob_noBranch w _ (by decide) rfl] at hev
                simp at hev
                rcases hev with rfl | rfl | rfl | rfl | rfl
                · exact absurd hm (by decide)
                · exact absurd hm (by decide)
                · exact absurd hm (by decide)
                · exact absurd hm (by decide)
                · exact ⟨out, rfl, by rw [hb]⟩
              · have hveq :=
                  validate_ok w initState o1 o2 out st h1 h2 h3 hb h4 hs
                rw [hveq] at hv
                cases hv
          · have hveq :=
              validate_wrongBranch w initState o1 o2 out h1 h2 h3 hb
            intro ev hev hm
            rw [RunOut.fullEvents, hrun] at hev
            simp only [hpl, hveq] at hev
            simp only [List.nil_append] at hev
            by_cases hob : strTrim out = ""
            · rw [rollback_empty w _ hob rfl] at hev
              simp at hev
              rcases hev with rfl | rfl | rfl <;> exact absurd hm (by decide)
            · rw [rollback_ob_noBranch w _ hob rfl] at hev
              simp at hev
              rcases hev with rfl | rfl | rfl | rfl
              · exact absurd hm (by decide)
              · exact absurd hm (by decide)
              · exact absurd hm (by decide)
              · exact ⟨out, rfl, rfl⟩

/-- C2 counterexample: in the run `wWrongBranch` validation fails with
WrongBranch, yet a mutating-category external command (the rollback's
`git checkout dev`) is invoked, refuting "no external mutating command runs
at all". -/
theorem preflight_mutation_cex :
    (runWorkflow wWrongBranch).failure =
      some (.validate, .wrongBranch "dev") ∧
    WErr.isPreflight (.wrongBranch "dev") = true ∧
    ¬ (∀ ev ∈ (runWorkflow wWrongBranch).fullEvents,
        ev.isMutating = false) := by
  decide

/-- C2 witness: the amended property applied to the concrete wrong-branch
run and its one mutating event. -/
theorem preflight_mutation_amended_w :
    ∃ o, wWrongBranch.cmd showCurrentCmd = .ok o ∧
      Event.cmd (checkoutCmd "dev") = .cmd (checkoutCmd (strTrim o)) :=
  preflight_mutation_amended wWrongBranch .validate (.wrongBranch "dev")
    (by decide) (by decide) (Event.cmd (checkoutCmd "dev"))
    (by decide) (by decide)

/-- C3 (amended): if the automatic merge command fails and the command that
opens the pull request succeeds, the merge step does not fail, blocks for
one line of operator input, and the cleanup step is still reached. -/
theorem merge_manual_fallback (w : World) (m o : String)
    (hpr : (pipelineThroughPR w).err = none)
    (hm : w.cmd (mergeCmd (pipelineThroughPR w).state.branchName) = .err m)
    (hv : w.cmd (viewCmd (pipelineThroughPR w).state.branchName) = .ok o) :
    (mergePR w (pipelineThroughPR w).state).2.1 = none ∧
    Event.readLine w.confirmAnswer ∈
      (mergePR w (pipelineThroughPR w).state).2.2 ∧
    cleanupReached w ∧
    Event.readLine w.confirmAnswer ∈ (runWorkflow w).events := by
  have hme := mergePR_manual w (pipelineThroughPR w).state m o hm hv
  have hacc2 : stepSeq w .mergePR mergePR (pipelineThroughPR w) =
      ⟨(pipelineThroughPR w).state, none,
        (pipelineThroughPR w).trace ++
          [.sleepMs 1000,
            .cmd (mergeCmd (pipelineThroughPR w).state.branchName),
            .cmd (viewCmd (pipelineThroughPR w).state.branchName),
            .readLine w.confirmAnswer]⟩ := by
    rw [stepSeq_of_none w .mergePR mergePR (pipelineThroughPR w) hpr, hme]
    rfl
  have hpl : pipeline w =
      ⟨(cleanup w (pipelineThroughPR w).state).1,
        ((cleanup w (pipelineThroughPR w).state).2.1).map
          fun x => (Phase.cleanup, x),
        ((pipelineThroughPR w).trace ++
          [.sleepMs 1000,
            .cmd (mergeCmd (pipelineThroughPR w).state.branchName),
            .cmd (viewCmd (pipelineThroughPR w).state.branchName),
            .readLine w.confirmAnswer]) ++
          (cleanup w (pipelineThroughPR w).state).2.2⟩ := by
    unfold pipeline
    rw [hacc2, stepSeq_mk_none]
  refine ⟨by rw [hme], by rw [hme]; simp, ?_, ?_⟩
  · unfold cleanupReached
    rw [runWorkflow_failure, hpl]
    cases hc : (cleanup w (pipelineThroughPR w).state).2.1 with
    | none => exact Or.inl rfl
    | some ec => exact Or.inr rfl
  · rw [runWorkflow_events, hpl]
    simp

/-- C3 counterexample: in `wViewFail` the automatic merge fails, and the
workflow does abort before cleanup (because opening the pull request also
fails), refuting the claim that cleanup is always still reached. -/
theorem merge_manual_fallback_cex :
    (pipelineThroughPR wViewFail).err = none ∧
    wViewFail.cmd
      (mergeCmd (pipelineThroughPR wViewFail).state.branchName) =
        .err "rejected" ∧
    ¬ cleanupReached wViewFail := by
  decide

/-- C3 witness: the amended property applied to the concrete run in which
only the automatic merge fails. -/
theorem merge_manual_fallback_w :
    cleanupReached wMergeManual ∧
    Event.readLine wMergeManual.confirmAnswer ∈
      (runWorkflow wMergeManual).events := by
  have h := merge_manual_fallback wMergeManual "rejected" "y" (by decide)
    (by decide) (by decide)
  exact ⟨h.2.2.1, h.2.2.2⟩

/-- C9: when the automatic merge fails and the browser-opening command also
fails, the merge step raises that failure — no operator input is awaited,
cleanup is not reached, and rollback is triggered. -/
theorem merge_viewFail_aborts (w : World) (m m2 : String)
    (hpr : (pipelineThroughPR w).err = none)
    (hm : w.cmd (mergeCmd (pipelineThroughPR w).state.branchName) = .err m)
    (hv : w.cmd (viewCmd (pipelineThroughPR w).state.branchName) =
      .err m2) :
    (runWorkflow w).failure = some (.mergePR,
      .cmdFailed (viewCmd (pipelineThroughPR w).state.branchName) m2) ∧
    (runWorkflow w).rollbackEvents.isSome = true ∧
    ¬ cleanupReached w ∧
    (mergePR w (pipelineThroughPR w).state).2.2 =
      [.sleepMs 1000,
        .cmd (mergeCmd (pipelineThroughPR w).state.branchName),
        .cmd (viewCmd (pipelineThroughPR w).state.branchName)] := by
  have hme := mergePR_viewFail w (pipelineThroughPR w).state m m2 hm hv
  have hacc2 : stepSeq w .mergePR mergePR (pipelineThroughPR w) =
      ⟨(pipelineThroughPR w).state,
        some (.mergePR,
          .cmdFailed (viewCmd (pipelineThroughPR w).state.branchName) m2),
        (pipelineThroughPR w).trace ++
          [.sleepMs 1000,
            .cmd (mergeCmd (pipelineThroughPR w).state.branchName),
            .cmd (viewCmd (pipelineThroughPR w).state.branchName)]⟩ := by
    rw [stepSeq_of_none w .mergePR mergePR (pipelineThroughPR w) hpr, hme]
    rfl
  have hpl : pipeline w =
      ⟨(pipelineThroughPR w).state,
        some (.mergePR,
          .cmdFailed (viewCmd (pipelineThroughPR w).state.branchName) m2),
        (pipelineThroughPR w).trace ++
          [.sleepMs 1000,
            .cmd (mergeCmd (pipelineThroughPR w).state.branchName),
            .cmd (viewCmd (pipelineThroughPR w).state.branchName)]⟩ := by
    unfold pipeline
    rw [hacc2, stepSeq_mk_some]
  have hfail : (runWorkflow w).failure = some (.mergePR,
      .cmdFailed (viewCmd (pipelineThroughPR w).state.branchName) m2) := by
    rw [runWorkflow_failure, hpl]
  refine ⟨hfail, ?_, ?_, by rw [hme]⟩
  · rw [runWorkflow_eq_of_err w _ (by rw [hpl])]
    rfl
  · unfold cleanupReached
    rw [hfail]
    simp

/-- C9 witness: the property evaluated on the concrete run in which both
the automatic merge and the browser-opening command fail. -/
theorem merge_viewFail_aborts_w :
    (runWorkflow wViewFail).failure = some (.mergePR,
      .cmdFailed (viewCmd (pipelineThroughPR wViewFail).state.branchName)
        "no browser") ∧
    (runWorkflow wViewFail).rollbackEvents.isSome = true ∧
    ¬ cleanupReached wViewFail ∧
    (mergePR wViewFail (pipelineThroughPR wViewFail).state).2.2 =
      [.sleepMs 1000,
        .cmd (mergeCmd (pipelineThroughPR wViewFail).state.branchName),
        .cmd (viewCmd (pipelineThroughPR wViewFail).state.branchName)] :=
  merge_viewFail_aborts wViewFail "rejected" "no browser" (by decide)
    (by decide) (by decide)

/-- C4 (amended): if the generator is absent, fails, or returns an
empty-after-trimming string, the resolved message is the fixed timestamped
template; at the interactive prompt, a response that is empty after trimming
keeps the current message, and any other response replaces it by its
trimmed value (not verbatim). -/
theorem commit_message_resolution (w : World) (s : WState) :
    (∀ m, w.cmd commitologistCmd = .err m →
      generatedMessage w = fallbackMessage w) ∧
    (∀ o, w.cmd commitologistCmd = .ok o → strTrim o = "" →
      generatedMessage w = fallbackMessage w) ∧
    (∀ o, w.cmd commitologistCmd = .ok o → strTrim o ≠ "" →
      generatedMessage w = strTrim o) ∧
    (strTrim w.editAnswer = "" →
      (generateCommitMessage w s).1.commitMessage = generatedMessage w) ∧
    (strTrim w.editAnswer ≠ "" →
      (generateCommitMessage w s).1.commitMessage = strTrim w.editAnswer) ∧
    (generateCommitMessage w s).2.1 = none := by
  refine ⟨?_, ?_, ?_, ?_, ?_, rfl⟩
  · intro m hm
    simp [generatedMessage, hm]
  · intro o ho ho'
    simp [generatedMessage, ho, ho']
  · intro o ho ho'
    simp [generatedMessage, ho, ho']
  · intro ha
    simp [generateCommitMessage, ha]
  · intro ha
    simp [generateCommitMessage, ha]

/-- C4 counterexample: with the whitespace-padded answer of `wGenFail` the
response is non-empty yet the stored message differs from it, refuting
"replaces it verbatim (exactly as entered)". -/
theorem commit_message_resolution_cex :
    wGenFail.editAnswer ≠ "" ∧
    (generateCommitMessage wGenFail initState).1.commitMessage ≠
      wGenFail.editAnswer := by
  decide

/-- C4 witness: the amended property evaluated at the concrete run with an
absent generator and a padded edit response. -/
theorem commit_message_resolution_w :
    generatedMessage wGenFail = fallbackMessage wGenFail ∧
    (generateCommitMessage wGenFail initState).1.commitMessage =
      strTrim wGenFail.editAnswer := by
  have h := commit_message_resolution wGenFail initState
  exact ⟨h.1 "command not found" (by decide), h.2.2.2.2.1 (by decide)⟩

/-- C6: environment validation performs its four checks in the fixed order,
short-circuits with the first failing check (the traces show exactly which
queries ran), compares the current branch against the trunk branch `main`,
and records the trimmed current branch into `originalBranch`. -/
theorem validation_order_spec (w : World) (s : WState) :
    (∀ m, w.cmd revParseCmd = .err m →
      validateEnvironment w s = (s, some .notARepo, [.cmd revParseCmd])) ∧
    (∀ o1 m, w.cmd revParseCmd = .ok o1 → w.cmd authCmd = .err m →
      validateEnvironment w s =
        (s, some .notAuth, [.cmd revParseCmd, .cmd authCmd])) ∧
    (∀ o1 o2 out, w.cmd revParseCmd = .ok o1 → w.cmd authCmd = .ok o2 →
      w.cmd showCurrentCmd = .ok out → strTrim out ≠ "main" →
      validateEnvironment w s =
        ({ s with originalBranch := strTrim out },
          some (.wrongBranch (strTrim out)),
          [.cmd revParseCmd, .cmd authCmd, .cmd showCurrentCmd])) ∧
    (∀ o1 o2 out st, w.cmd revParseCmd = .ok o1 → w.cmd authCmd = .ok o2 →
      w.cmd showCurrentCmd = .ok out → strTrim out = "main" →
      w.cmd statusCmd = .ok st → strTrim st = "" →
      validateEnvironment w s =
        ({ s with originalBranch := "main" }, some .noChanges,
          [.cmd revParseCmd, .cmd authCmd, .cmd showCurrentCmd,
            .cmd statusCmd])) ∧
    (∀ o1 o2 out st, w.cmd revParseCmd = .ok o1 → w.cmd authCmd = .ok o2 →
      w.cmd showCurrentCmd = .ok out → strTrim out = "main" →
      w.cmd statusCmd = .ok st → strTrim st ≠ "" →
      validateEnvironment w s =
        ({ s with originalBranch := "main" }, none,
          [.cmd revParseCmd, .cmd authCmd, .cmd showCurrentCmd,
            .cmd statusCmd])) := by
  refine ⟨?_, ?_, ?_, ?_, ?_⟩
  · exact fun m h1 => validate_notARepo w s m h1
  · exact fun o1 m h1 h2 => validate_notAuth w s o1 m h1 h2
  · exact fun o1 o2 out h1 h2 h3 hb =>
      validate_wrongBranch w s o1 o2 out h1 h2 h3 hb
  · exact fun o1 o2 out st h1 h2 h3 hb h4 hs =>
      validate_noChanges w s o1 o2 out st h1 h2 h3 hb h4 hs
  · exact fun o1 o2 out st h1 h2 h3 hb h4 hs =>
      validate_ok w s o1 o2 out st h1 h2 h3 hb h4 hs

/-- C6 witness: validation of the concrete wrong-branch run records the
current branch and stops after the third query. -/
theorem validation_order_spec_w :
    validateEnvironment wWrongBranch initState =
      ({ initState with originalBranch := "dev" },
        some (.wrongBranch "dev"),
        [.cmd revParseCmd, .cmd authCmd, .cmd showCurrentCmd]) := by
  have h := (validation_order_spec wWrongBranch initState).2.2.1 "y" "y"
    "dev\n" (by decide) (by decide) (by decide) (by decide)
  rw [show strTrim "dev\n" = "dev" from by decide] at h
  exact h

/-- C7: in cleanup, a failing trunk checkout or pull propagates as the
step's error (and any cleanup-phase failure triggers rollback in `run`),
whereas the local-branch deletion is attempted and its outcome ignored. -/
theorem cleanup_failure_policy (w : World) (s : WState) :
    (∀ m, w.cmd (checkoutCmd "main") = .err m →
      cleanup w s = (s, some (.cmdFailed (checkoutCmd "main") m),
        [.cmd (checkoutCmd "main")])) ∧
    (∀ o m, w.cmd (checkoutCmd "main") = .ok o → w.cmd pullCmd = .err m →
      cleanup w s = (s, some (.cmdFailed pullCmd m),
        [.cmd (checkoutCmd "main"), .cmd pullCmd])) ∧
    (∀ o o2, w.cmd (checkoutCmd "main") = .ok o → w.cmd pullCmd = .ok o2 →
      cleanup w s = (s, none,
        [.cmd (checkoutCmd "main"), .cmd pullCmd,
          .cmd (branchDCmd s.branchName)])) ∧
    (∀ e, (runWorkflow w).failure = some (.cleanup, e) →
      (runWorkflow w).rollbackEvents.isSome = true) := by
  refine ⟨?_, ?_, ?_, ?_⟩
  · intro m h1
    simp [cleanup, h1]
  · intro o m h1 h2
    simp [cleanup, h1, h2]
  · intro o o2 h1 h2
    simp [cleanup, h1, h2]
  · intro e hf
    rw [runWorkflow_failure] at hf
    rw [runWorkflow_eq_of_err w _ hf]
    rfl

/-- C7 witness: the policy evaluated on the concrete run whose trunk
checkout fails during cleanup. -/
theorem cleanup_failure_policy_w :
    cleanup wCleanupFail initState =
      (initState,
        some (.cmdFailed (checkoutCmd "main") "working tree dirty"),
        [.cmd (checkoutCmd "main")]) ∧
    (runWorkflow wCleanupFail).rollbackEvents.isSome = true := by
  have h := cleanup_failure_policy wCleanupFail initState
  exact ⟨h.1 "working tree dirty" (by decide),
    h.2.2.2 (.cmdFailed (checkoutCmd "main") "working tree dirty")
      (by decide)⟩

/-- C8: inside rollback, when the checkout of the recorded original branch
fails, the deletion of the generated branch is skipped entirely, the
failure is caught, and the original pipeline error still determines the
reported failure and the exit code. -/
theorem rollback_checkout_failure (w : World) (s : WState) (m : String)
    (hob : s.originalBranch ≠ "")
    (hc : w.cmd (checkoutCmd s.originalBranch) = .err m) :
    rollback w s = [.cmd (checkoutCmd s.originalBranch)] ∧
    (∀ b, Event.cmd (branchDCmd b) ∉ rollback w s) ∧
    (∀ pe, (pipeline w).err = some pe →
      (runWorkflow w).failure = some pe ∧
        (runWorkflow w).exitCode = 1) := by
  refine ⟨rollback_checkout_fail w s m hob hc, ?_, ?_⟩
  · intro b hmem
    rw [rollback_checkout_fail w s m hob hc] at hmem
    simp at hmem
    exact branchD_ne_checkout b s.originalBranch hmem
  · intro pe hpe
    rw [runWorkflow_eq_of_err w pe hpe]
    exact ⟨rfl, rfl⟩

/-- C8 witness: the property evaluated at a concrete state and a run whose
checkout of `main` fails. -/
theorem rollback_checkout_failure_w :
    rollback wCleanupFail ⟨"hotfix-2025-07-30-14-30-45", "main", "y"⟩ =
      [.cmd (checkoutCmd "main")] ∧
    Event.cmd (branchDCmd "hotfix-2025-07-30-14-30-45") ∉
      rollback wCleanupFail
        ⟨"hotfix-2025-07-30-14-30-45", "main", "y"⟩ := by
  have h := rollback_checkout_failure wCleanupFail
    ⟨"hotfix-2025-07-30-14-30-45", "main", "y"⟩ "working tree dirty"
    (by decide) (by decide)
  exact ⟨h.1, h.2.1 "hotfix-2025-07-30-14-30-45"⟩

/-- C10 counterexample: for the 71-character message `m71` the commit
command does embed the message itself, but the PR-creation command does
not — it embeds the truncated title — refuting the claim that both steps
insert `m` between double quotes. -/
theorem command_interpolation_cex :
    commitCmd m71 = "git commit -m \"" ++ m71 ++ "\"" ∧
    prCreateCmd (prTitle m71) (prBody loc0) "h" ≠
      "gh pr create --title \"" ++ m71 ++ "\" --body \"" ++ prBody loc0 ++
        "\" --base main --head " ++ "h" := by
  decide

/-- C10 (amended): the commit command embeds the resolved message, and the
PR-creation command embeds the message truncated to its first 70 characters
(and the body), unescaped between double quotes, so a double-quote in the
message changes the quoting structure of the executed command (the quote
count grows with the message's quotes). -/
theorem command_interpolation (w : World) (s : WState) :
    (∀ m : String, commitCmd m = "git commit -m \"" ++ m ++ "\"") ∧
    (∀ m body b : String, prCreateCmd (prTitle m) body b =
      "gh pr create --title \"" ++ prTitle m ++ "\" --body \"" ++ body ++
        "\" --base main --head " ++ b) ∧
    (∀ m : String, prTitle m =
      if m.length > 70 then ⟨m.data.take 70⟩ else m) ∧
    (∀ m : String, (commitCmd m).data.count '"' = 2 + m.data.count '"') ∧
    (∀ o, w.cmd addCmd = .ok o → (commitChanges w s).2.2 =
      [.cmd addCmd, .cmd (commitCmd s.commitMessage)]) ∧
    (createPR w s).2.2 =
      [.cmd (prCreateCmd (prTitle s.commitMessage) (prBody w.localeBody)
        s.branchName)] := by
  refine ⟨fun m => rfl, fun m body b => rfl, fun m => rfl, ?_, ?_, ?_⟩
  · intro m
    rw [commitCmd, data_append, data_append, List.count_append,
      List.count_append]
    have h1 : List.count '"' "git commit -m \"".data = 1 := by decide
    have h2 : List.count '"' "\"".data = 1 := by decide
    rw [h1, h2]
    omega
  · intro o h1
    simp only [commitChanges, h1]
    cases w.cmd (commitCmd s.commitMessage) <;> rfl
  · unfold createPR
    cases w.cmd (prCreateCmd (prTitle s.commitMessage) (prBody w.localeBody)
      s.branchName) <;> rfl

/-- C10 witness: the staged-then-commit trace with a concrete message. -/
theorem command_interpolation_w :
    (commitChanges wOk ⟨"b", "main", "msg"⟩).2.2 =
      [.cmd addCmd, .cmd (commitCmd "msg")] := by
  have h := command_interpolation wOk ⟨"b", "main", "msg"⟩
  exact h.2.2.2.2.1 "y" (by decide)

end Hotfix
